import Mathlib

/-!
Shallow embedding of the QTikzPicture library (src/src/qtikzpicture.cpp and the
variant implementation in src/unnamed/part_001) and proofs about its spec.

Modelling conventions:
* `qreal` (C++ double) is modelled as `ℚ`; the toolkit number-to-text helpers
  (`QLocale::toString(double, 'g', prec)` and `QTextStream`'s fixed-notation
  `operator<<(double)`) are modelled by executable decimal formatters on `ℚ`.
* `QTextStream` is modelled as accumulated text plus its real-number
  formatting settings; the nullable `QTextStream*` held by the emitter is an
  `Option TextStream`.
* `QHash<QString, bool>` (only key presence is used) is modelled as a list of
  registered names.
-/

namespace QTikz

/-- Models QPointF: a 2D point; qreal coordinates modelled as rationals. -/
structure Point where
  x : ℚ
  y : ℚ
deriving DecidableEq

/-- Real-number formatting mode of a QTextStream.  The library only ever uses
the default (SmartNotation, printf %g style) and FixedNotation; the unused
ScientificNotation is omitted. -/
inductive NumMode where
  | smartMode
  | fixedMode
deriving DecidableEq

/-- Models QTextStream as used here: an append-only text sink together with
its real-number formatting settings (defaults: precision 6, SmartNotation). -/
structure TextStream where
  content : String
  realNumberPrecision : ℕ
  mode : NumMode
deriving DecidableEq

/-- A QTextStream over an empty destination, with Qt default settings. -/
def freshTS : TextStream :=
  { content := "", realNumberPrecision := 6, mode := NumMode.smartMode }

/-- Models a QColor RGB value (alpha is never touched by this library). -/
structure RGB where
  r : Fin 256
  g : Fin 256
  b : Fin 256
deriving DecidableEq

/-- The private state of QTikzPicture (class QTikzPicturePrivate):
`QTextStream* ts` (nullable), `QHash<QString, bool> colors` (key presence
only), `int precision` (clamped nonnegative on every assignment). -/
structure TikzState where
  ts : Option TextStream
  colors : List String
  precision : ℕ
deriving DecidableEq

/-- QTikzPicture::QTikzPicture(): `d->ts = 0; d->precision = 2;`. -/
def initTikz : TikzState := { ts := none, colors := [], precision := 2 }

/-! ### Number formatting (models of the Qt toolkit formatters)

The formatters work on an explicit sign/numerator/denominator representation
(the value is `(-1)^neg * n / d`, with `d ≠ 0`; the fraction need not be in
lowest terms) so that they are evaluable by kernel reduction; the `ℚ`
wrappers below destructure a rational into that form. -/

/-- Number of decimal digits of a natural number. -/
def numDigits (n : ℕ) : ℕ := (Nat.repr n).length

/-- Round `n / d` to the nearest natural number, halves away from zero. -/
def halfUp (n d : ℕ) : ℕ := (2 * n + d) / (2 * d)

/-- Floor of the base-10 logarithm of `n / d`, for `n, d ≥ 1`: the unique `e`
with `10 ^ e ≤ n / d < 10 ^ (e + 1)`. -/
def fracExp (n d : ℕ) : ℤ :=
  if d ≤ n then (numDigits (n / d) : ℤ) - 1
  else -(numDigits ((d + n - 1) / n - 1) : ℤ)

/-- Drop trailing `'0'` characters. -/
def stripZeros (l : List Char) : List Char :=
  (l.reverse.dropWhile (fun c => c = '0')).reverse

/-- Modelled from the toolkit: C-locale fixed-point formatting of
`(-1)^neg * n / d` with `prec` fractional digits, as produced by
`QTextStream <<` for a double under FixedNotation (printf %.*f style). -/
def fmtFixedParts (prec : ℕ) (neg : Bool) (n d : ℕ) : String :=
  let sign := if neg then "-" else ""
  let scaled := halfUp (n * 10 ^ prec) d
  if prec = 0 then sign ++ Nat.repr scaled
  else
    let ds := (Nat.repr scaled).toList
    let ds := List.replicate (prec + 1 - ds.length) '0' ++ ds
    sign ++ String.mk (ds.take (ds.length - prec)) ++ "." ++
      String.mk (ds.drop (ds.length - prec))

/-- Modelled from the toolkit: C-locale %g-style formatting of
`(-1)^neg * n / d` with `prec` significant digits, as produced by
`QLocale::c().toString(double, 'g', prec)` (and by QLocale's default double
formatting, which is this with `prec = 6`): round to `prec` significant
digits, strip trailing fractional zeros, and switch to scientific notation
when the decimal exponent falls outside `[-4, prec)`. -/
def fmtGParts (prec : ℕ) (neg : Bool) (n d : ℕ) : String :=
  if n = 0 then "0"
  else
    let p := max prec 1
    let sign := if neg then "-" else ""
    let e : ℤ := fracExp n d
    let m : ℤ := (p : ℤ) - 1 - e
    let scaled : ℕ :=
      if 0 ≤ m then halfUp (n * 10 ^ m.toNat) d else halfUp n (d * 10 ^ (-m).toNat)
    let e := if 10 ^ p ≤ scaled then e + 1 else e
    let scaled := if 10 ^ p ≤ scaled then scaled / 10 else scaled
    let ds := stripZeros (Nat.repr scaled).toList
    let body :=
      if -4 ≤ e ∧ e < (p : ℤ) then
        if 0 ≤ e then
          let k := e.toNat + 1
          if ds.length ≤ k then String.mk (ds ++ List.replicate (k - ds.length) '0')
          else String.mk (ds.take k) ++ "." ++ String.mk (ds.drop k)
        else
          "0." ++ String.mk (List.replicate (-(e + 1)).toNat '0' ++ ds)
      else
        let mant :=
          match ds with
          | [] => "0"
          | [c] => String.mk [c]
          | c :: rest => String.mk [c] ++ "." ++ String.mk rest
        let estr := if e.natAbs < 10 then "0" ++ Nat.repr e.natAbs else Nat.repr e.natAbs
        mant ++ "e" ++ (if e < 0 then "-" else "+") ++ estr
    sign ++ body

/-- %g-style formatting of a rational (see `fmtGParts`). -/
def fmtG (prec : ℕ) (q : ℚ) : String :=
  fmtGParts prec (decide (q.num < 0)) q.num.natAbs q.den

/-- Fixed-point formatting of a rational (see `fmtFixedParts`). -/
def fmtFixed (prec : ℕ) (q : ℚ) : String :=
  fmtFixedParts prec (decide (q.num < 0)) q.num.natAbs q.den

/-- Text a given stream produces for a number given as sign/numerator/
denominator, following the stream's current real-number formatting. -/
def streamFmtParts (ts : TextStream) (neg : Bool) (n d : ℕ) : String :=
  match ts.mode with
  | NumMode.smartMode => fmtGParts ts.realNumberPrecision neg n d
  | NumMode.fixedMode => fmtFixedParts ts.realNumberPrecision neg n d

/-- Text a given stream produces for a rational number, following its current
real-number formatting settings. -/
def streamFmt (ts : TextStream) (q : ℚ) : String :=
  streamFmtParts ts (decide (q.num < 0)) q.num.natAbs q.den

/-- QTikzPicturePrivate::toCoord: `"(" + l.toString(pt.x(), 'g', precision) +
", " + l.toString(pt.y(), 'g', precision) + ")"` (C locale).  The
src/src/qtikzpicture.cpp variant calls `l.toString(pt.x())`, i.e. this
function with the QLocale default `prec = 6`. -/
def toCoord (prec : ℕ) (pt : Point) : String :=
  "(" ++ fmtG prec pt.x ++ ", " ++ fmtG prec pt.y ++ ")"

/-! ### The path compiler (QTikzPicturePrivate::toTikzPath(QPainterPath)) -/

/-- Models QPainterPath::Element: a tagged element kind plus its coordinate. -/
inductive PathElement where
  | moveTo (p : Point)
  | lineTo (p : Point)
  | curveTo (p : Point)
  | curveToData (p : Point)
deriving DecidableEq

/-- The loop state of toTikzPath(QPainterPath): the list of completed
sub-path texts (`pathList`), the in-progress sub-path text (`currentPath`)
and the pending control-point counter (`currentControlPoint`). -/
structure PathAcc where
  pathList : List String
  currentPath : String
  cnt : ℕ
deriving DecidableEq

/-- One iteration of the toTikzPath(QPainterPath) loop (the switch over
`element.type` at src/src/qtikzpicture.cpp:76-111). -/
def pathStep (prec : ℕ) (acc : PathAcc) (el : PathElement) : PathAcc :=
  match el with
  | PathElement.moveTo p =>
    let pl :=
      if acc.currentPath ≠ "" then acc.pathList ++ [acc.currentPath ++ " -- cycle"]
      else acc.pathList
    let ind := if pl.length ≠ 0 then "    " else ""
    { acc with pathList := pl, currentPath := ind ++ toCoord prec p }
  | PathElement.lineTo p =>
    { acc with currentPath := acc.currentPath ++ " -- " ++ toCoord prec p }
  | PathElement.curveTo p =>
    { acc with currentPath := acc.currentPath ++ " .. controls " ++ toCoord prec p, cnt := 1 }
  | PathElement.curveToData p =>
    if acc.cnt = 1 then
      { acc with currentPath := acc.currentPath ++ " and " ++ toCoord prec p, cnt := 2 }
    else if acc.cnt = 2 then
      { acc with currentPath := acc.currentPath ++ " .. " ++ toCoord prec p, cnt := 0 }
    else acc

/-- Models QPainterPath::isEmpty(): true for no elements, or for a single
element that is a MoveTo. -/
def pathIsEmpty (els : List PathElement) : Bool :=
  match els with
  | [] => true
  | [PathElement.moveTo _] => true
  | _ => false

/-- QTikzPicturePrivate::toTikzPath(const QPainterPath&)
(src/src/qtikzpicture.cpp:64-115, identically src/unnamed/part_001:71-122):
guard on `path.isEmpty()`, fold the element loop from the empty state, and
return `pathList.join("\n")`.  Note that the loop deposits `currentPath`
into `pathList` only when a later MoveTo arrives; the code has no flush of
the trailing `currentPath` after the loop.  `prec` is the coordinate
formatting precision (6 in the src/src variant, `d->precision` in the
part_001 variant). -/
def toTikzPath (prec : ℕ) (els : List PathElement) : String :=
  if pathIsEmpty els then ""
  else
    String.intercalate "\n" (els.foldl (pathStep prec) ⟨[], "", 0⟩).pathList

/-! ### Polygon, rectangle-free helpers and circle paths (part_001 variant) -/

/-- Models QPolygonF::isClosed(): nonempty and first point equals last. -/
def polygonIsClosed (poly : List Point) : Bool :=
  decide (poly ≠ [] ∧ poly.head? = poly.getLast?)

/-- QTikzPicturePrivate::toTikzPath(const QPolygonF&)
(src/unnamed/part_001:124-142).  The bound is embedded exactly as the C++
parses: `const int end = polygon.size() - polygon.isClosed() ? 1 : 0;`
groups as `(size - isClosed) ? 1 : 0` because `-` binds tighter than `?:`,
and inside the loop the last index appends `" -- cycle"` in place of its
coordinate. -/
def toTikzPathPolygon (prec : ℕ) (poly : List Point) : String :=
  if poly = [] then ""
  else
    let e : ℕ :=
      if poly.length - (if polygonIsClosed poly then 1 else 0) ≠ 0 then 1 else 0
    (List.range e).foldl
      (fun path i =>
        if i = 0 then toCoord prec (poly.getD i ⟨0, 0⟩)
        else if i = e - 1 then path ++ " -- cycle"
        else path ++ " -- " ++ toCoord prec (poly.getD i ⟨0, 0⟩))
      ""

/-- QTikzPicturePrivate::toTikzPath(const QPointF&, qreal)
(src/unnamed/part_001:159-166): empty for a negative radius, otherwise
`center circle (radius cm)`. -/
def toTikzPathCircle (prec : ℕ) (center : Point) (radius : ℚ) : String :=
  if radius < 0 then ""
  else toCoord prec center ++ " circle (" ++ fmtG prec radius ++ "cm)"

/-! ### Color registrar -/

/-- Lower-case hex digit of a value below 16. -/
def hexChar (n : ℕ) : Char :=
  if n < 10 then Char.ofNat (48 + n) else Char.ofNat (87 + n)

/-- Two lower-case hex digits of a byte. -/
def hexByte (v : ℕ) : List Char := [hexChar (v / 16), hexChar (v % 16)]

/-- Models QColor::name(): the string `#rrggbb` in lower-case hex. -/
def colorHexName (c : RGB) : List Char :=
  '#' :: (hexByte c.r.val ++ hexByte c.g.val ++ hexByte c.b.val)

/-- Substitution of one character by another. -/
def repChar (pat rep ch : Char) : Char := if ch = pat then rep else ch

/-- Models `QString::replace(pat, rep, Qt::CaseInsensitive)` for the
single-character digit patterns used by registerColor (for those, replacing
every occurrence is a per-character map; the digits have no case). -/
def replaceChar (pat rep : Char) (s : List Char) : List Char :=
  s.map (repChar pat rep)

/-- The ten successive digit replacements of registerColor
(src/src/qtikzpicture.cpp:167-176): `0→q, 1→r, ..., 9→z`. -/
def translit (s : List Char) : List Char :=
  replaceChar '9' 'z' (replaceChar '8' 'y' (replaceChar '7' 'x'
    (replaceChar '6' 'w' (replaceChar '5' 'v' (replaceChar '4' 'u'
      (replaceChar '3' 't' (replaceChar '2' 's' (replaceChar '1' 'r'
        (replaceChar '0' 'q' s)))))))))

/-- The digit substitution applied to a single character (the composition of
the ten replacements). -/
def translitChar (ch : Char) : Char :=
  repChar '9' 'z' (repChar '8' 'y' (repChar '7' 'x' (repChar '6' 'w'
    (repChar '5' 'v' (repChar '4' 'u' (repChar '3' 't' (repChar '2' 's'
      (repChar '1' 'r' (repChar '0' 'q' ch)))))))))

/-- The canonical symbolic name registerColor derives for a non-basic color:
take `color.name()`, strip the leading `#`, transliterate the digits, and
prefix a literal `c` (src/src/qtikzpicture.cpp:164-178). -/
def canonicalColorName (c : RGB) : String :=
  let name := colorHexName c
  let name := if name.head? = some '#' then name.drop 1 else name
  String.mk ('c' :: translit name)

/-- The 8 predefined colors short-circuited by registerColor
(src/src/qtikzpicture.cpp:155-162), compared as RGB values. -/
def basicColorName (c : RGB) : Option String :=
  if c = ⟨255, 0, 0⟩ then some "red"
  else if c = ⟨0, 255, 0⟩ then some "green"
  else if c = ⟨0, 0, 255⟩ then some "blue"
  else if c = ⟨0, 0, 0⟩ then some "black"
  else if c = ⟨255, 255, 255⟩ then some "white"
  else if c = ⟨0, 255, 255⟩ then some "cyan"
  else if c = ⟨255, 0, 255⟩ then some "magenta"
  else if c = ⟨255, 255, 0⟩ then some "yellow"
  else none

/-! ### Writing to the sink -/

/-- Append text to the sink if one is set (the text may depend on the
stream's formatting settings, as `operator<<(double)` does); with no sink
the state is unchanged. -/
def writeTS (st : TikzState) (f : TextStream → String) : TikzState :=
  match st.ts with
  | none => st
  | some ts => { st with ts := some { ts with content := ts.content ++ f ts } }

/-- Append fixed text to the sink if one is set. -/
def writeStr (st : TikzState) (s : String) : TikzState :=
  writeTS st (fun _ => s)

/-- The text accumulated in the sink (empty when no sink is set). -/
def sinkContent (st : TikzState) : String :=
  match st.ts with
  | none => ""
  | some ts => ts.content

/-- The sink's real-number precision, when a sink is set. -/
def sinkPrec (st : TikzState) : Option ℕ :=
  st.ts.map (fun ts => ts.realNumberPrecision)

/-- `pat` occurs as a contiguous substring of `s`. -/
def containsStr (s pat : String) : Prop :=
  ∃ a b : String, s = a ++ (pat ++ b)

/-! ### QTikzPicture operations (src/src/qtikzpicture.cpp) -/

/-- QTikzPicture::setStream (src/src/qtikzpicture.cpp:141-150): store the
sink, clamp the stored precision with `qMax(0, precision)`, and — if the
sink is non-null — call `setRealNumberPrecision(precision)` with the
*unclamped* value (QTextStream replaces a negative precision by its default
6) and set FixedNotation. -/
def setStream (st : TikzState) (tsOpt : Option TextStream) (prec : ℤ) : TikzState :=
  let st1 : TikzState := { st with ts := tsOpt, precision := (max 0 prec).toNat }
  match tsOpt with
  | none => st1
  | some ts =>
    { st1 with
      ts := some { ts with
        realNumberPrecision := if prec < 0 then 6 else prec.toNat,
        mode := NumMode.fixedMode } }

/-- The `\definecolor` command registerColor streams for a new color: the
three channel values are `redF()`, `greenF()`, `blueF()`, i.e. channel/255,
streamed with the sink's own number formatting. -/
def definecolorText (ts : TextStream) (name : String) (c : RGB) : String :=
  "\\definecolor\x7b" ++ name ++ "\x7d\x7brgb\x7d\x7b" ++
    streamFmtParts ts false c.r.val 255 ++ ", " ++
    streamFmtParts ts false c.g.val 255 ++ ", " ++
    streamFmtParts ts false c.b.val 255 ++ "\x7d\n"

/-- QTikzPicture::registerColor (src/src/qtikzpicture.cpp:152-189): basic
colors short-circuit; otherwise derive the canonical name, and if it is not
yet registered, stream the definition (when a sink is set) and register it;
the name is returned in every case. -/
def registerColor (st : TikzState) (c : RGB) : String × TikzState :=
  match basicColorName c with
  | some n => (n, st)
  | none =>
    let name := canonicalColorName c
    if name ∈ st.colors then (name, st)
    else
      let st1 := writeTS st (fun ts => definecolorText ts name c)
      (name, { st1 with colors := name :: st1.colors })

/-- `"[" + options + "]"` when options is nonempty, nothing otherwise. -/
def optBracket (options : String) : String :=
  if options = "" then "" else "[" ++ options ++ "]"

/-- QTikzPicture::begin (src/src/qtikzpicture.cpp:191-200). -/
def beginPicture (st : TikzState) (options : String) : TikzState :=
  match st.ts with
  | none => st
  | some _ =>
    if options = "" then writeStr st "\\begin\x7btikzpicture\x7d\n"
    else writeStr st ("\\begin\x7btikzpicture\x7d[" ++ options ++ "]\n")

/-- QTikzPicture::end (src/src/qtikzpicture.cpp:202-207). -/
def endPicture (st : TikzState) : TikzState :=
  match st.ts with
  | none => st
  | some _ => writeStr st "\\end\x7btikzpicture\x7d\n"

/-- QTikzPicture::beginScope (src/src/qtikzpicture.cpp:209-218). -/
def beginScope (st : TikzState) (options : String) : TikzState :=
  match st.ts with
  | none => st
  | some _ =>
    if options = "" then writeStr st "\\begin\x7bscope\x7d\n"
    else writeStr st ("\\begin\x7bscope\x7d[" ++ options ++ "]\n")

/-- QTikzPicture::endScope (src/src/qtikzpicture.cpp:220-225). -/
def endScope (st : TikzState) : TikzState :=
  match st.ts with
  | none => st
  | some _ => writeStr st "\\end\x7bscope\x7d\n"

/-- QTikzPicture::newline (src/src/qtikzpicture.cpp:227-234): writes `"\n"`
`count` times (so a nonpositive count writes nothing). -/
def newline (st : TikzState) (count : ℤ) : TikzState :=
  match st.ts with
  | none => st
  | some _ => writeStr st (String.mk (List.replicate count.toNat '\n'))

/-- QTikzPicture::comment (src/src/qtikzpicture.cpp:236-241). -/
def comment (st : TikzState) (text : String) : TikzState :=
  match st.ts with
  | none => st
  | some _ => writeStr st ("% " ++ text ++ "\n")

/-- QTikzPicture::path(const QPainterPath&, const QString&)
(src/src/qtikzpicture.cpp:243-254). -/
def pathCmd (st : TikzState) (els : List PathElement) (options : String) : TikzState :=
  match st.ts with
  | none => st
  | some _ =>
    let tikzPath := toTikzPath 6 els
    if tikzPath = "" then st
    else
      writeStr st
        ((if options = "" then "\\path " else "\\path[" ++ options ++ "] ") ++
          tikzPath ++ ";\n")

/-- QTikzPicture::clip(const QPainterPath&) (src/src/qtikzpicture.cpp:269-277). -/
def clipPath (st : TikzState) (els : List PathElement) : TikzState :=
  match st.ts with
  | none => st
  | some _ =>
    let tikzPath := toTikzPath 6 els
    if tikzPath = "" then st
    else writeStr st ("\\clip " ++ tikzPath ++ ";\n")

/-- QTikzPicture::circle (src/src/qtikzpicture.cpp:289-298): no sink or a
radius ≤ 0 gives no output; otherwise a `\draw ... circle (...cm);` command,
numbers streamed with the sink's formatting. -/
def circle (st : TikzState) (center : Point) (radius : ℚ) (options : String) : TikzState :=
  match st.ts with
  | none => st
  | some _ =>
    if radius ≤ 0 then st
    else
      writeTS st (fun ts =>
        "\\draw" ++ optBracket options ++ " (" ++ streamFmt ts center.x ++ ", " ++
          streamFmt ts center.y ++ ") circle (" ++ streamFmt ts radius ++ "cm);\n")

/-- QTikzPicture::line(const QPointF&, const QPointF&, const QString&)
(src/src/qtikzpicture.cpp:300-309): always writes the full command when a
sink is set — there is no degeneracy check. -/
def line (st : TikzState) (p q : Point) (options : String) : TikzState :=
  match st.ts with
  | none => st
  | some _ =>
    writeTS st (fun ts =>
      "\\draw" ++ optBracket options ++ " (" ++ streamFmt ts p.x ++ ", " ++
        streamFmt ts p.y ++ ") -- (" ++ streamFmt ts q.x ++ ", " ++
        streamFmt ts q.y ++ ");\n")

/-- QTikzPicture::line(const QVector<QPointF>&, const QString&)
(src/src/qtikzpicture.cpp:311-324). -/
def lineVec (st : TikzState) (points : List Point) (options : String) : TikzState :=
  match st.ts with
  | none => st
  | some _ =>
    if points.length < 2 then st
    else
      writeTS st (fun ts =>
        "\\draw" ++ optBracket options ++
          String.join ((points.take (points.length - 1)).map (fun p =>
            " (" ++ streamFmt ts p.x ++ ", " ++ streamFmt ts p.y ++ ") --")) ++
          " (" ++ streamFmt ts ((points.getLast?).getD ⟨0, 0⟩).x ++ ", " ++
          streamFmt ts ((points.getLast?).getD ⟨0, 0⟩).y ++ ");\n")

/-- QTikzPicture::operator<<(const QString&) (src/src/qtikzpicture.cpp:326-331). -/
def insertText (st : TikzState) (text : String) : TikzState :=
  match st.ts with
  | none => st
  | some _ => if text = "" then st else writeStr st text

/-- QTikzPicture::operator<<(double) (src/src/qtikzpicture.cpp:338-342). -/
def insertNumber (st : TikzState) (x : ℚ) : TikzState :=
  match st.ts with
  | none => st
  | some _ => writeTS st (fun ts => streamFmt ts x)

/-- QTikzPicture::operator<<(int) (src/src/qtikzpicture.cpp:344-348). -/
def insertInt (st : TikzState) (n : ℤ) : TikzState :=
  match st.ts with
  | none => st
  | some _ => writeStr st (toString n)

/-! ### The part_001 variant's writePath and its circle overloads -/

/-- QTikzPicturePrivate::writePath (src/unnamed/part_001:168-178): no sink or
an empty path text writes nothing; otherwise `cmd[options] path;\n`. -/
def writePath (st : TikzState) (cmd options pathText : String) : TikzState :=
  match st.ts with
  | none => st
  | some _ =>
    if pathText = "" then st
    else writeStr st (cmd ++ optBracket options ++ " " ++ pathText ++ ";\n")

/-- QTikzPicture::draw(const QPointF&, qreal, const QString&)
(src/unnamed/part_001:356-359). -/
def drawCircle (st : TikzState) (center : Point) (radius : ℚ) (options : String) : TikzState :=
  writePath st "\\draw" options (toTikzPathCircle st.precision center radius)

/-- QTikzPicture::fill(const QPointF&, qreal, const QString&)
(src/unnamed/part_001:387-390). -/
def fillCircle (st : TikzState) (center : Point) (radius : ℚ) (options : String) : TikzState :=
  writePath st "\\fill" options (toTikzPathCircle st.precision center radius)

/-- QTikzPicture::path(const QPointF&, qreal, const QString&)
(src/unnamed/part_001:325-328). -/
def pathCircle (st : TikzState) (center : Point) (radius : ℚ) (options : String) : TikzState :=
  writePath st "\\path" options (toTikzPathCircle st.precision center radius)

/-! ### Sample states used by witnesses -/

/-- A stream as configured by `setStream(&stream, 2)`: empty content,
precision 2, fixed-point real-number formatting. -/
def ts0 : TextStream :=
  { content := "", realNumberPrecision := 2, mode := NumMode.fixedMode }

/-- An emitter holding the stream `ts0`, as produced by `setStream(&stream, 2)`
on a fresh QTikzPicture. -/
def st0 : TikzState := { ts := some ts0, colors := [], precision := 2 }

/-! ### Helper lemmas -/

theorem st0_eq_setStream : st0 = setStream initTikz (some freshTS) 2 := by decide

theorem length_pos_ne_empty {s : String} (h : 0 < s.length) : s ≠ "" := by
  intro he
  subst he
  simp at h

theorem str_append_ne_left (a b : String) (hb : b.length ≠ 0) : a ++ b ≠ a := by
  intro h
  have h2 := congrArg String.length h
  rw [String.length_append] at h2
  omega

theorem toCoord_ne_empty (prec : ℕ) (p : Point) : toCoord prec p ≠ "" := by
  apply length_pos_ne_empty
  simp only [toCoord, String.length_append]
  have h1 : ("(" : String).length = 1 := rfl
  omega

/-! ### Claim theorems -/

/-- C1: the claim states that a path of one MoveTo followed by one LineTo
compiles to `"(x1, y1) -- (x2, y2)"`, the trailing in-progress sub-path being
included unclosed in the result.  The code does the opposite: `currentPath`
is deposited into `pathList` only when a later MoveTo arrives, and the
function returns `pathList.join("\n")` without flushing the trailing
sub-path, so a MoveTo-LineTo path compiles to the empty string — in
particular not to `"(1, 2) -- (3, 4)"` at the concrete input
`[MoveTo(1,2), LineTo(3,4)]`. -/
theorem c1_trailing_subpath_dropped (prec : ℕ) (p1 p2 : Point) :
    toTikzPath prec [PathElement.moveTo p1, PathElement.lineTo p2] = "" ∧
    toTikzPath 6 [PathElement.moveTo ⟨1, 2⟩, PathElement.lineTo ⟨3, 4⟩] ≠
      "(1, 2) -- (3, 4)" :=
  ⟨rfl, by decide⟩

/-- C2: the claim states that for a path with two MoveTo-started sub-paths
the first sub-path text is suffixed with `" -- cycle"` (which holds) and that
both sub-path texts appear newline-joined in the result (which fails: the
second sub-path is the trailing one and is dropped).  The compiled result is
exactly the closed first sub-path, with the second sub-path and newline
absent. -/
theorem c2_second_subpath_missing (prec : ℕ) (p1 p2 p3 p4 : Point) :
    toTikzPath prec [PathElement.moveTo p1, PathElement.lineTo p2,
      PathElement.moveTo p3, PathElement.lineTo p4] =
      toCoord prec p1 ++ " -- " ++ toCoord prec p2 ++ " -- cycle" ∧
    toTikzPath 6 [PathElement.moveTo ⟨0, 0⟩, PathElement.lineTo ⟨1, 1⟩,
      PathElement.moveTo ⟨2, 2⟩, PathElement.lineTo ⟨3, 3⟩] ≠
      "(0, 0) -- (1, 1) -- cycle\n    (2, 2) -- (3, 3)" := by
  constructor
  · have hA : toCoord prec p1 ++ " -- " ++ toCoord prec p2 ≠ "" := by
      apply length_pos_ne_empty
      simp only [String.length_append]
      have h4 : (" -- " : String).length = 4 := rfl
      omega
    have hsing : ∀ s : String, String.intercalate "\n" [s] = s := fun s => rfl
    simp only [toTikzPath]
    rw [show pathIsEmpty [PathElement.moveTo p1, PathElement.lineTo p2,
        PathElement.moveTo p3, PathElement.lineTo p4] = false from rfl]
    rw [if_neg (by simp)]
    simp only [List.foldl_cons, List.foldl_nil, pathStep]
    simp [hA, hsing]
  · decide

/-- C5: the claim states that a polygon with at least 2 points compiles to
all its coordinates joined by `" -- "`, with `" -- cycle"` appended exactly
when the polygon is closed.  The code instead computes
`end = (size - isClosed) ? 1 : 0` (an operator-precedence slip), so for any
nonempty polygon at most the first coordinate is emitted: the open polygon
`[(0,0), (1,1)]` compiles to `"(0, 0)"`, not `"(0, 0) -- (1, 1)"`, and the
closed square `[(0,0), (1,0), (1,1), (0,0)]` also compiles to `"(0, 0)"`. -/
theorem c5_polygon_truncated :
    toTikzPathPolygon 2 [(⟨0, 0⟩ : Point), ⟨1, 1⟩] = "(0, 0)" ∧
    toTikzPathPolygon 2 [(⟨0, 0⟩ : Point), ⟨1, 1⟩] ≠ "(0, 0) -- (1, 1)" ∧
    toTikzPathPolygon 2 [(⟨0, 0⟩ : Point), ⟨1, 0⟩, ⟨1, 1⟩, ⟨0, 0⟩] = "(0, 0)" := by
  decide

/-- C9: the control-point state machine of the path compiler: CurveTo
appends `" .. controls "` plus its coordinate and sets the pending counter
to 1; CurveToData appends `" and "` plus its coordinate at counter 1
(counter becomes 2), appends `" .. "` plus its coordinate at counter 2
(counter resets to 0), and at counter 0 is discarded silently, leaving the
state unchanged — observably, a stray CurveToData between two MoveTos
changes nothing in the compiled path. -/
theorem c9_control_point_machine (prec : ℕ) (acc : PathAcc) (p p0 p1 : Point) :
    pathStep prec acc (PathElement.curveTo p) =
      { acc with currentPath := acc.currentPath ++ " .. controls " ++ toCoord prec p,
                 cnt := 1 } ∧
    (acc.cnt = 1 → pathStep prec acc (PathElement.curveToData p) =
      { acc with currentPath := acc.currentPath ++ " and " ++ toCoord prec p,
                 cnt := 2 }) ∧
    (acc.cnt = 2 → pathStep prec acc (PathElement.curveToData p) =
      { acc with currentPath := acc.currentPath ++ " .. " ++ toCoord prec p,
                 cnt := 0 }) ∧
    (acc.cnt = 0 → pathStep prec acc (PathElement.curveToData p) = acc) ∧
    toTikzPath prec [PathElement.moveTo p0, PathElement.curveToData p,
        PathElement.moveTo p1] =
      toTikzPath prec [PathElement.moveTo p0, PathElement.moveTo p1] := by
  refine ⟨rfl, ?_, ?_, ?_, rfl⟩
  · intro h
    simp [pathStep, h]
  · intro h
    simp [pathStep, h]
  · intro h
    simp [pathStep, h]

/-- Witness for C9: the three CurveToData branches applied at concrete
accumulator states with pending counter 1, 2 and 0. -/
theorem c9_witness :
    pathStep 2 ⟨[], "x", 1⟩ (PathElement.curveToData ⟨5, 6⟩) =
      ⟨[], "x" ++ " and " ++ toCoord 2 ⟨5, 6⟩, 2⟩ ∧
    pathStep 2 ⟨[], "x", 2⟩ (PathElement.curveToData ⟨5, 6⟩) =
      ⟨[], "x" ++ " .. " ++ toCoord 2 ⟨5, 6⟩, 0⟩ ∧
    pathStep 2 ⟨[], "x", 0⟩ (PathElement.curveToData ⟨5, 6⟩) = ⟨[], "x", 0⟩ :=
  ⟨(c9_control_point_machine 2 ⟨[], "x", 1⟩ ⟨5, 6⟩ ⟨0, 0⟩ ⟨0, 0⟩).2.1 rfl,
   (c9_control_point_machine 2 ⟨[], "x", 2⟩ ⟨5, 6⟩ ⟨0, 0⟩ ⟨0, 0⟩).2.2.1 rfl,
   (c9_control_point_machine 2 ⟨[], "x", 0⟩ ⟨5, 6⟩ ⟨0, 0⟩ ⟨0, 0⟩).2.2.2.1 rfl⟩

/-- C10: line(p, q, options) performs no degeneracy check: with a sink set
and p = q it still writes the complete `\draw (x, y) -- (x, y);\n` command
(so the sink content strictly grows). -/
theorem c10_degenerate_line_written (st : TikzState) (ts : TextStream)
    (h : st.ts = some ts) (p : Point) (options : String) :
    sinkContent (line st p p options) =
      sinkContent st ++ ("\\draw" ++ optBracket options ++ " (" ++ streamFmt ts p.x ++
        ", " ++ streamFmt ts p.y ++ ") -- (" ++ streamFmt ts p.x ++ ", " ++
        streamFmt ts p.y ++ ");\n") ∧
    sinkContent (line st p p options) ≠ sinkContent st := by
  obtain ⟨tso, cols, prec⟩ := st
  simp only at h
  subst h
  constructor
  · rfl
  · rw [show sinkContent (line ⟨some ts, cols, prec⟩ p p options) =
        sinkContent ⟨some ts, cols, prec⟩ ++ ("\\draw" ++ optBracket options ++ " (" ++
          streamFmt ts p.x ++ ", " ++ streamFmt ts p.y ++ ") -- (" ++ streamFmt ts p.x ++
          ", " ++ streamFmt ts p.y ++ ");\n") from rfl]
    apply str_append_ne_left
    rw [String.length_append]
    have h3 : ((");\n") : String).length = 3 := rfl
    omega

/-- Witness for C10 at the state produced by `setStream(&stream, 2)` and the
degenerate line from (1, 2) to itself. -/
theorem c10_witness :
    sinkContent (line st0 ⟨1, 2⟩ ⟨1, 2⟩ "") =
      sinkContent st0 ++ ("\\draw" ++ optBracket "" ++ " (" ++ streamFmt ts0 (1 : ℚ) ++
        ", " ++ streamFmt ts0 (2 : ℚ) ++ ") -- (" ++ streamFmt ts0 (1 : ℚ) ++ ", " ++
        streamFmt ts0 (2 : ℚ) ++ ");\n") :=
  (c10_degenerate_line_written st0 ts0 rfl ⟨1, 2⟩ "").1

/-- C7 counterexample: the claim states that after `setStream(sink, p)` the
sink's real-number formatting is set to the clamped precision `max(0, p)`.
At `p = -1` the stored precision is the clamp 0, but the code passes the raw
`-1` to `setRealNumberPrecision`, which falls back to the QTextStream
default 6 — so the sink precision is not the clamped 0. -/
theorem c7_counterexample :
    (setStream initTikz (some freshTS) (-1)).precision = 0 ∧
    sinkPrec (setStream initTikz (some freshTS) (-1)) ≠ some 0 := by
  decide

/-- C7 (amended): after `setStream(some sink, p)` the stored precision is
`max(0, p)`; the sink's formatting however receives the raw, unclamped `p`
(QTextStream substitutes its default 6 for a negative value) and is set to
fixed-point notation; for `p ≥ 0` the sink precision does agree with the
clamp. -/
theorem c7_precision_clamped (st : TikzState) (ts : TextStream) (p : ℤ) :
    (setStream st (some ts) p).precision = (max 0 p).toNat ∧
    sinkPrec (setStream st (some ts) p) = some (if p < 0 then 6 else p.toNat) ∧
    (0 ≤ p → sinkPrec (setStream st (some ts) p) = some (max 0 p).toNat) ∧
    (setStream st (some ts) p).ts =
      some { ts with realNumberPrecision := if p < 0 then 6 else p.toNat,
                     mode := NumMode.fixedMode } := by
  refine ⟨rfl, rfl, ?_, rfl⟩
  intro hp
  simp only [setStream, sinkPrec, Option.map]
  rw [if_neg (by omega)]
  congr 1
  omega

/-- Witness for C7 at `p = 3`. -/
theorem c7_witness :
    sinkPrec (setStream initTikz (some freshTS) 3) = some (max 0 (3 : ℤ)).toNat :=
  (c7_precision_clamped initTikz freshTS 3).2.2.1 (by decide)

/-- C8 counterexample: the claim states every operation on a null-sink
emitter leaves the emitter's state unchanged.  registerColor does not: with
no sink set, registering a non-basic color still inserts its canonical name
into the color registry, so the state changes. -/
theorem c8_counterexample :
    (registerColor initTikz ⟨1, 1, 1⟩).2 ≠ initTikz := by decide

/-- C8 (amended): with the sink unset, every operation writes nothing and
returns normally; all operations except registerColor leave the state
entirely unchanged, while registerColor keeps the sink unset and the
precision unchanged (and writes nothing) but may still add the canonical
name to the registry. -/
theorem c8_null_sink_no_ops (st : TikzState) (h : st.ts = none)
    (options text cmd ptxt : String) (els : List PathElement) (cen p q : Point)
    (r x : ℚ) (k n : ℤ) (pts : List Point) (c : RGB) :
    beginPicture st options = st ∧ endPicture st = st ∧
    beginScope st options = st ∧ endScope st = st ∧
    newline st k = st ∧ comment st text = st ∧
    pathCmd st els options = st ∧ clipPath st els = st ∧
    circle st cen r options = st ∧ line st p q options = st ∧
    lineVec st pts options = st ∧ insertText st text = st ∧
    insertNumber st x = st ∧ insertInt st n = st ∧
    writePath st cmd options ptxt = st ∧ drawCircle st cen r options = st ∧
    fillCircle st cen r options = st ∧ pathCircle st cen r options = st ∧
    sinkContent (registerColor st c).2 = "" ∧
    (registerColor st c).2.ts = none ∧
    (registerColor st c).2.precision = st.precision := by
  obtain ⟨tso, cols, prec⟩ := st
  simp only at h
  subst h
  refine ⟨rfl, rfl, rfl, rfl, rfl, rfl, rfl, rfl, rfl, rfl, rfl, rfl, rfl, rfl, rfl,
    rfl, rfl, rfl, ?_, ?_, ?_⟩ <;>
  · cases hb : basicColorName c with
    | some nm => simp [registerColor, hb, sinkContent]
    | none =>
      by_cases hm : canonicalColorName c ∈ cols <;>
        simp [registerColor, hb, hm, sinkContent, writeTS]

/-- Witness for C8 on a fresh emitter (null sink). -/
theorem c8_witness :
    comment initTikz "x" = initTikz ∧
    (registerColor initTikz ⟨1, 1, 1⟩).2.ts = none := by
  obtain ⟨h1, h2, h3, h4, h5, h6, h7, h8, h9, h10, h11, h12, h13, h14, h15, h16,
    h17, h18, h19, h20, h21⟩ :=
    c8_null_sink_no_ops initTikz rfl "" "x" "" "" [] ⟨0, 0⟩ ⟨0, 0⟩ ⟨0, 0⟩ 0 0 0 0 []
      ⟨1, 1, 1⟩
  exact ⟨h6, h20⟩


theorem writeTS_colors (st : TikzState) (f : TextStream → String) :
    (writeTS st f).colors = st.colors := by
  unfold writeTS
  cases st.ts <;> rfl

theorem registerColor_basic (st : TikzState) (c : RGB) (nm : String)
    (hb : basicColorName c = some nm) : registerColor st c = (nm, st) := by
  simp [registerColor, hb]

theorem registerColor_mem (st : TikzState) (c : RGB)
    (hb : basicColorName c = none) (hm : canonicalColorName c ∈ st.colors) :
    registerColor st c = (canonicalColorName c, st) := by
  simp [registerColor, hb, hm]

theorem registerColor_new (st : TikzState) (c : RGB)
    (hb : basicColorName c = none) (hm : canonicalColorName c ∉ st.colors) :
    registerColor st c = (canonicalColorName c,
      { writeTS st (fun ts => definecolorText ts (canonicalColorName c) c) with
        colors := canonicalColorName c :: st.colors }) := by
  simp [registerColor, hb, hm, writeTS_colors]

/-- C3: registerColor is idempotent: a second call with the same color value
returns the same name and leaves the whole state (registry and sink) exactly
as after the first call, so the definition command is emitted at most once;
registry entries only ever accumulate; and when a sink is set and a
non-basic color is not yet registered, the first call appends exactly the
(nonempty) `\definecolor` command to the captured output. -/
theorem c3_registerColor_idempotent (st : TikzState) (c : RGB) :
    (registerColor (registerColor st c).2 c).1 = (registerColor st c).1 ∧
    (registerColor (registerColor st c).2 c).2 = (registerColor st c).2 ∧
    (∀ nm, nm ∈ st.colors → nm ∈ (registerColor st c).2.colors) ∧
    (∀ ts : TextStream, st.ts = some ts → basicColorName c = none →
      canonicalColorName c ∉ st.colors →
      (registerColor st c).2.ts =
        some { ts with content := ts.content ++
          definecolorText ts (canonicalColorName c) c } ∧
      definecolorText ts (canonicalColorName c) c ≠ "") := by
  cases hb : basicColorName c with
  | some nm =>
    have h1 := registerColor_basic st c nm hb
    refine ⟨by simp [h1], by simp [h1], ?_, ?_⟩
    · intro x hx
      simpa [h1] using hx
    · intro ts hts hbn hmem
      exact Option.noConfusion hbn
  | none =>
    by_cases hm : canonicalColorName c ∈ st.colors
    · have h1 := registerColor_mem st c hb hm
      refine ⟨by simp [h1], by simp [h1], ?_, ?_⟩
      · intro x hx
        simpa [h1] using hx
      · intro ts hts hbn hmem
        exact absurd hm hmem
    · have h1 := registerColor_new st c hb hm
      have hcols : (registerColor st c).2.colors = canonicalColorName c :: st.colors := by
        rw [h1]
      have hmem2 : canonicalColorName c ∈ (registerColor st c).2.colors := by
        rw [hcols]
        exact List.mem_cons_self _ _
      have h2 := registerColor_mem (registerColor st c).2 c hb hmem2
      refine ⟨?_, by simp [h2], ?_, ?_⟩
      · simp only [h2]
        simp [h1]
      · intro x hx
        rw [hcols]
        exact List.mem_cons_of_mem _ hx
      · intro ts hts hbn hmem
        constructor
        · rw [h1]
          simp [writeTS, hts]
        · apply length_pos_ne_empty
          simp only [definecolorText, String.length_append]
          have h13 : ("\\definecolor\x7b" : String).length = 13 := rfl
          omega

/-- Witness for C3: registering gray #010101 on `setStream(&stream, 2)`
appends its definition command to the (initially empty) output. -/
theorem c3_witness :
    (registerColor st0 ⟨1, 1, 1⟩).2.ts =
      some { ts0 with content := ts0.content ++
        definecolorText ts0 (canonicalColorName ⟨1, 1, 1⟩) ⟨1, 1, 1⟩ } :=
  ((c3_registerColor_idempotent st0 ⟨1, 1, 1⟩).2.2.2 ts0 rfl (by decide) (by decide)).1


/-- The canonical name spelled out: `c` followed by the transliterated hex
digits of the three channels. -/
theorem hname_eq (c : RGB) : canonicalColorName c =
    String.mk ['c', translitChar (hexChar (c.r.val / 16)), translitChar (hexChar (c.r.val % 16)),
      translitChar (hexChar (c.g.val / 16)), translitChar (hexChar (c.g.val % 16)),
      translitChar (hexChar (c.b.val / 16)), translitChar (hexChar (c.b.val % 16))] := by
  set_option maxHeartbeats 1600000 in rfl

/-- The digit transliteration composed with the hex-digit map is injective
on single hex digits (a finite check). -/
theorem translitChar_hexChar_inj :
    ∀ x y : Fin 16, translitChar (hexChar x.val) = translitChar (hexChar y.val) → x = y := by
  decide

theorem canonicalColorName_inj (c1 c2 : RGB) (h : c1 ≠ c2) :
    canonicalColorName c1 ≠ canonicalColorName c2 := by
  intro he
  apply h
  rw [hname_eq, hname_eq] at he
  rw [String.ext_iff] at he
  simp only [List.cons.injEq, and_true, true_and, eq_self_iff_true] at he
  obtain ⟨h1, h2, h3, h4, h5, h6⟩ := he
  have hb1 : c1.r.val < 256 := c1.r.isLt
  have hb2 : c2.r.val < 256 := c2.r.isLt
  have hb3 : c1.g.val < 256 := c1.g.isLt
  have hb4 : c2.g.val < 256 := c2.g.isLt
  have hb5 : c1.b.val < 256 := c1.b.isLt
  have hb6 : c2.b.val < 256 := c2.b.isLt
  have e1 : c1.r.val / 16 = c2.r.val / 16 :=
    congrArg Fin.val (translitChar_hexChar_inj ⟨c1.r.val / 16, by omega⟩
      ⟨c2.r.val / 16, by omega⟩ h1)
  have e2 : c1.r.val % 16 = c2.r.val % 16 :=
    congrArg Fin.val (translitChar_hexChar_inj ⟨c1.r.val % 16, by omega⟩
      ⟨c2.r.val % 16, by omega⟩ h2)
  have e3 : c1.g.val / 16 = c2.g.val / 16 :=
    congrArg Fin.val (translitChar_hexChar_inj ⟨c1.g.val / 16, by omega⟩
      ⟨c2.g.val / 16, by omega⟩ h3)
  have e4 : c1.g.val % 16 = c2.g.val % 16 :=
    congrArg Fin.val (translitChar_hexChar_inj ⟨c1.g.val % 16, by omega⟩
      ⟨c2.g.val % 16, by omega⟩ h4)
  have e5 : c1.b.val / 16 = c2.b.val / 16 :=
    congrArg Fin.val (translitChar_hexChar_inj ⟨c1.b.val / 16, by omega⟩
      ⟨c2.b.val / 16, by omega⟩ h5)
  have e6 : c1.b.val % 16 = c2.b.val % 16 :=
    congrArg Fin.val (translitChar_hexChar_inj ⟨c1.b.val % 16, by omega⟩
      ⟨c2.b.val % 16, by omega⟩ h6)
  obtain ⟨r1, g1, b1⟩ := c1
  obtain ⟨r2, g2, b2⟩ := c2
  simp only at e1 e2 e3 e4 e5 e6 hb1 hb2 hb3 hb4 hb5 hb6
  simp only [RGB.mk.injEq]
  refine ⟨Fin.ext ?_, Fin.ext ?_, Fin.ext ?_⟩ <;> omega

/-- C6: for two distinct non-basic RGB values, registerColor returns two
distinct symbolic names: the per-hex-digit transliteration prefixed by `c`
maps distinct fixed-width hex representations to distinct identifiers. -/
theorem c6_registered_names_injective (st : TikzState) (c1 c2 : RGB) (h12 : c1 ≠ c2)
    (h1 : basicColorName c1 = none) (h2 : basicColorName c2 = none) :
    (registerColor st c1).1 ≠ (registerColor st c2).1 := by
  have hfst : ∀ c : RGB, basicColorName c = none →
      (registerColor st c).1 = canonicalColorName c := by
    intro c hc
    by_cases hm : canonicalColorName c ∈ st.colors <;> simp [registerColor, hc, hm]
  rw [hfst c1 h1, hfst c2 h2]
  exact canonicalColorName_inj c1 c2 h12

/-- Witness for C6: two distinct gray levels on a fresh emitter. -/
theorem c6_witness :
    (registerColor initTikz ⟨1, 1, 1⟩).1 ≠ (registerColor initTikz ⟨2, 2, 2⟩).1 :=
  c6_registered_names_injective initTikz ⟨1, 1, 1⟩ ⟨2, 2, 2⟩ (by decide) (by decide)
    (by decide)


/-- C4 counterexample: the claim says every circle-emitting operation
produces no output for radius 0.  The draw overload (via writePath and
toTikzPathCircle, which skips only radius < 0) does write a full command at
radius 0. -/
theorem c4_counterexample :
    sinkContent (drawCircle st0 ⟨0, 0⟩ 0 "") ≠ "" ∧
    sinkContent (drawCircle st0 ⟨0, 0⟩ 0 "") = "\\draw (0, 0) circle (0cm);\n" := by
  decide

theorem toTikzPathCircle_pos (prec : ℕ) (cen : Point) (r : ℚ) (hr : 0 < r) :
    toTikzPathCircle prec cen r =
      toCoord prec cen ++ " circle (" ++ fmtG prec r ++ "cm)" := by
  rw [toTikzPathCircle, if_neg (by exact not_lt_of_gt hr)]

theorem toTikzPathCircle_pos_ne (prec : ℕ) (cen : Point) (r : ℚ) (hr : 0 < r) :
    toTikzPathCircle prec cen r ≠ "" := by
  rw [toTikzPathCircle_pos prec cen r hr]
  apply length_pos_ne_empty
  simp only [String.length_append]
  have h1 : (" circle (" : String).length = 9 := rfl
  omega

theorem writePath_content (ts : TextStream) (cols : List String) (prec : ℕ)
    (cmd options pathText : String) (hne : pathText ≠ "") :
    sinkContent (writePath ⟨some ts, cols, prec⟩ cmd options pathText) =
      ts.content ++ (cmd ++ optBracket options ++ " " ++ pathText ++ ";\n") := by
  simp [writePath, hne, writeStr, writeTS, sinkContent]

theorem writePath_circle_contains (ts : TextStream) (cols : List String) (prec : ℕ)
    (cmd options : String) (cen : Point) (r : ℚ) (hr : 0 < r) :
    containsStr (sinkContent (writePath ⟨some ts, cols, prec⟩ cmd options
      (toTikzPathCircle prec cen r))) ("circle (" ++ fmtG prec r ++ "cm)") := by
  rw [writePath_content ts cols prec cmd options _ (toTikzPathCircle_pos_ne prec cen r hr),
      toTikzPathCircle_pos prec cen r hr]
  refine ⟨ts.content ++ (cmd ++ optBracket options ++ " " ++ toCoord prec cen ++ " "),
    ";\n", ?_⟩
  rw [show (" circle (" : String) = " " ++ "circle (" from rfl]
  simp only [String.append_assoc]

/-- C4 (amended): the circle command skips radius ≤ 0; the path/draw/fill
circle overloads skip only radius < 0 (radius 0 does produce output, as the
counterexample shows); for every positive radius each of them produces
output containing `circle (` + formatted radius + `cm)` — formatted by the
sink's stream settings for the circle command, and by the C-locale %g
formatter at the emitter's precision for the overloads. -/
theorem c4_circle_radius_guard (st : TikzState) (cen : Point) (r : ℚ) (options : String) :
    (r ≤ 0 → circle st cen r options = st) ∧
    (r < 0 → drawCircle st cen r options = st ∧ fillCircle st cen r options = st ∧
      pathCircle st cen r options = st) ∧
    (0 < r → ∀ ts, st.ts = some ts →
      containsStr (sinkContent (circle st cen r options))
        ("circle (" ++ streamFmt ts r ++ "cm)") ∧
      containsStr (sinkContent (drawCircle st cen r options))
        ("circle (" ++ fmtG st.precision r ++ "cm)") ∧
      containsStr (sinkContent (fillCircle st cen r options))
        ("circle (" ++ fmtG st.precision r ++ "cm)") ∧
      containsStr (sinkContent (pathCircle st cen r options))
        ("circle (" ++ fmtG st.precision r ++ "cm)")) := by
  obtain ⟨tso, cols, prec⟩ := st
  refine ⟨?_, ?_, ?_⟩
  · intro hr
    cases tso with
    | none => rfl
    | some ts => simp [circle, hr]
  · intro hr
    have hempty : toTikzPathCircle prec cen r = "" := by
      rw [toTikzPathCircle, if_pos hr]
    refine ⟨?_, ?_, ?_⟩ <;>
      · show writePath _ _ _ _ = _
        cases tso with
        | none => rfl
        | some ts => simp [writePath, hempty]
  · intro hr ts hts
    simp only at hts
    subst hts
    have hne := toTikzPathCircle_pos_ne prec cen r hr
    have hpos := toTikzPathCircle_pos prec cen r hr
    have hrle : ¬ (r ≤ 0) := not_le.mpr hr
    constructor
    · refine ⟨ts.content ++ ("\\draw" ++ optBracket options ++ " (" ++ streamFmt ts cen.x ++
        ", " ++ streamFmt ts cen.y ++ ") "), ";\n", ?_⟩
      rw [show sinkContent (circle ⟨some ts, cols, prec⟩ cen r options) =
          ts.content ++ ("\\draw" ++ optBracket options ++ " (" ++ streamFmt ts cen.x ++
            ", " ++ streamFmt ts cen.y ++ ") circle (" ++ streamFmt ts r ++ "cm);\n") from by
        simp [circle, hrle, writeTS, sinkContent]]
      rw [show (") circle (" : String) = ") " ++ "circle (" from rfl,
          show ("cm);\n" : String) = "cm)" ++ ";\n" from rfl]
      simp only [String.append_assoc]
    exact ⟨writePath_circle_contains ts cols prec "\\draw" options cen r hr,
      writePath_circle_contains ts cols prec "\\fill" options cen r hr,
      writePath_circle_contains ts cols prec "\\path" options cen r hr⟩


/-- Witness for C4: radius 0 is a no-op for the circle command, and radius 1
produces output containing the formatted-radius circle text. -/
theorem c4_witness :
    circle st0 ⟨0, 0⟩ 0 "" = st0 ∧
    containsStr (sinkContent (circle st0 ⟨0, 0⟩ 1 ""))
      ("circle (" ++ streamFmt ts0 (1 : ℚ) ++ "cm)") ∧
    containsStr (sinkContent (drawCircle st0 ⟨0, 0⟩ 1 ""))
      ("circle (" ++ fmtG st0.precision (1 : ℚ) ++ "cm)") :=
  ⟨(c4_circle_radius_guard st0 ⟨0, 0⟩ 0 "").1 (by decide),
   ((c4_circle_radius_guard st0 ⟨0, 0⟩ 1 "").2.2 (by decide) ts0 rfl).1,
   ((c4_circle_radius_guard st0 ⟨0, 0⟩ 1 "").2.2 (by decide) ts0 rfl).2.1⟩

end QTikz
